import Mathlib

/-!
Shallow embedding of the authentication subsystem of the AUCA alumni API
(`routers/auth.py`, `utils/security.py`, `models.py`), together with proofs
about its token issue / validate / revoke behaviour and the OTP registration
flow.

Modelling conventions:
* Machine state is the relational store: lists of rows for `students`,
  `users`, `revoked_tokens` and `personal_information`.
* A JWT is modelled by whether its signature verifies under the server's
  `SECRET_KEY`: `Token.signed payload` stands for any token string whose
  HS256 signature is valid and whose decoded claims dict is `payload`;
  `Token.invalid` stands for every malformed or badly signed string.
* Timestamps are seconds since the epoch, as `Nat` (python-jose compares
  integer-second timestamps obtained via `timegm(utcnow().utctimetuple())`).
* Nondeterministic inputs of the handlers (current clock, the `uuid4` jti,
  the random OTP, the autoincrement id handed out by the database, whether
  the SMTP send succeeds) are explicit parameters.
* The bcrypt primitives are collaborator black boxes: handlers take the
  hash / verify functions as parameters.
-/

namespace AucaAuth

/-- A JSON claim value as used in this service's JWT payloads: either a
string or an integer (timestamps). -/
inductive JVal where
  | str (s : String)
  | num (n : Nat)
deriving DecidableEq, Repr

/-- A JWT claims dict: association list from claim name to value, in
insertion order, without duplicate keys once built by `setClaim`. -/
abbrev Claims := List (String × JVal)

/-- Lookup `d[k]` / `d.get(k)`: the value of claim `k`, if present. -/
def getClaim (d : Claims) (k : String) : Option JVal :=
  (d.find? (fun p => p.1 = k)).map (fun p => p.2)

/-- Update `d.update(...)` for one key `k`: remove any existing entry for `k` and append the
new binding. -/
def setClaim (d : Claims) (k : String) (v : JVal) : Claims :=
  (d.filter (fun p => p.1 ≠ k)) ++ [(k, v)]

/-- The claim names present in a payload, in order. -/
def claimKeys (d : Claims) : List String := d.map (fun p => p.1)

/-- A bearer token string, abstracted by signature validity: `signed d`
is a string whose HS256 signature verifies under `SECRET_KEY` and decodes
to claims `d`; `invalid` is any other string. -/
inductive Token where
  | signed (payload : Claims)
  | invalid
deriving DecidableEq, Repr

/-! ### Python `str` / `int` on natural numbers

`login` puts `str(user.id)` in the `sub` claim and `get_current_user`
recovers it with `int(payload["sub"])`.  We model the two builtins on
canonical decimal numerals.  (Python's `int` additionally accepts
surrounding whitespace and an explicit sign; the service never produces
such subjects, and our model maps them to `none`.) -/

/-- Little-endian decimal digits of `n`, with explicit fuel so that the
definition reduces definitionally (`toDecimal` below supplies fuel `n`). -/
def toDecimalAux : Nat → Nat → List Nat
  | 0, _ => []
  | fuel + 1, n => if n = 0 then [] else n % 10 :: toDecimalAux fuel (n / 10)

/-- Little-endian decimal digits of `n` (empty for `0`). -/
def toDecimal (n : Nat) : List Nat := toDecimalAux n n

/-- Value of a little-endian decimal digit list. -/
def fromDigits : List Nat → Nat
  | [] => 0
  | d :: ds => d + 10 * fromDigits ds

/-- The ASCII character of a decimal digit. -/
def digitChar (d : Nat) : Char := Char.ofNat (48 + d)

/-- The decimal digit denoted by a character, if any. -/
def charDigit? (c : Char) : Option Nat :=
  if 48 ≤ c.toNat ∧ c.toNat ≤ 57 then some (c.toNat - 48) else none

/-- Parse every character of a string as a decimal digit. -/
def parseDigits : List Char → Option (List Nat)
  | [] => some []
  | c :: cs =>
    match charDigit? c, parseDigits cs with
    | some d, some ds => some (d :: ds)
    | _, _ => none

/-- Python `str(n)` for a nonnegative integer `n`: its canonical decimal
numeral. -/
def pyStrNat (n : Nat) : String :=
  if n = 0 then "0" else String.mk ((toDecimal n).reverse.map digitChar)

/-- Python `int(s)` restricted to canonical decimal numerals: `some n`
when every character of the nonempty `s` is a decimal digit, else `none`
(modelling the `ValueError` / non-numeral case). -/
def pyIntStr? (s : String) : Option Nat :=
  match s.data with
  | [] => none
  | cs => (parseDigits cs).map (fun ds => fromDigits ds.reverse)

/-! ### Relational rows (`models.py`) -/

/-- A row of `students` (the columns the auth handlers read). -/
structure StudentRec where
  id : Nat
  first_name : String
  last_name : String
deriving DecidableEq, Repr

/-- A row of `users` (`models.py:465`, the columns the auth handlers
read or write). `password` holds the bcrypt hash, `remember_token` the
pending registration OTP. -/
structure UserRec where
  id : Nat
  email : String
  password : String
  remember_token : Option String
  first_name : String
  last_name : String
  phone_number : Option String
  student_id : Nat
deriving DecidableEq, Repr

/-- A row of `revoked_tokens` (`models.py:519`): `jti` is `unique=True,
nullable=False`. -/
structure RevokedTokenRec where
  jti : String
  revoked_at : Nat
deriving DecidableEq, Repr

/-- A row of `personal_information` (`models.py:254`), restricted to the
columns `update_profile` touches. Dates are carried as strings. -/
structure PersonalInfoRec where
  user_id : Nat
  bio : String
  address : String
  photo : Option String
  current_employer : Option String
  self_employed : Option String
  latest_education_level : Option String
  profession_id : Option Nat
  dob : Option String
  start_date : Option String
  end_date : Option String
  faculty_id : Option Nat
  country_id : Option String
  department : Option String
  gender : Option Bool
  status : Option String
deriving DecidableEq, Repr

/-- The relational store visible to the auth handlers. -/
structure DBState where
  students : List StudentRec
  users : List UserRec
  revoked : List RevokedTokenRec
  personal : List PersonalInfoRec
deriving DecidableEq, Repr

/-- The jti strings currently present in the revocation store. -/
def revokedJtis (s : DBState) : List String := s.revoked.map (fun r => r.jti)

/-! ### `utils/security.py` -/

/-- Constant `ACCESS_TOKEN_EXPIRE_MINUTES = 60`. -/
def ACCESS_TOKEN_EXPIRE_MINUTES : Nat := 60

/-- Model of `create_access_token(data, expires_delta)`: copy `data`, then update it
with `exp = utcnow() + (expires_delta or 60 minutes)` and a fresh `jti`,
and sign the result with `SECRET_KEY`. `now` is the clock reading and
`jti` the `uuid4` output; `expiresDeltaSecs` is the optional
`expires_delta`, in seconds. No database access occurs. -/
def create_access_token (data : Claims) (now : Nat) (jti : String)
    (expiresDeltaSecs : Option Nat) : Token :=
  Token.signed
    (setClaim
      (setClaim data "exp"
        (JVal.num (now + expiresDeltaSecs.getD (ACCESS_TOKEN_EXPIRE_MINUTES * 60))))
      "jti" (JVal.str jti))

/-- python-jose `_validate_exp` with zero leeway: absent `exp` passes;
an integer `exp` fails precisely when `exp < now` (so a token is still
accepted at the exact expiry instant); a string `exp` is coerced with
`int(...)` and rejected on `ValueError`. -/
def validateExp (d : Claims) (now : Nat) : Bool :=
  match getClaim d "exp" with
  | none => true
  | some (JVal.num e) => decide (¬ e < now)
  | some (JVal.str s) =>
    match pyIntStr? s with
    | some e => decide (¬ e < now)
    | none => false

/-- python-jose `_validate_sub`: a present `sub` claim must be a string. -/
def validateSub (d : Claims) : Bool :=
  match getClaim d "sub" with
  | some (JVal.num _) => false
  | _ => true

/-- python-jose `_validate_jti`: a present `jti` claim must be a string. -/
def validateJti (d : Claims) : Bool :=
  match getClaim d "jti" with
  | some (JVal.num _) => false
  | _ => true

/-- Model of `decode_access_token(token)`: `jwt.decode` under `SECRET_KEY`, returning
the payload, or `None` on any `JWTError` (bad signature, expired token,
ill-typed claim). Claim validation is modelled for the registered claims
this service issues and inspects (`exp`, `sub`, `jti`); the service never
sets `aud`, `nbf` or `iss`, and theorems quantifying over arbitrary
payloads restrict to these claim names. -/
def decode_access_token (t : Token) (now : Nat) : Option Claims :=
  match t with
  | Token.invalid => none
  | Token.signed d =>
    if validateExp d now && validateSub d && validateJti d then some d else none

/-! ### `routers/auth.py` -/

/-- The 401 error codes `get_current_user` can raise. -/
inductive ErrCode where
  | invalid_token
  | token_revoked
  | user_not_found
deriving DecidableEq, Repr

/-- Outcome of `get_current_user`: the resolved user row, a 401
`HTTPException` with one of the three codes, or an unhandled Python
exception (here: the `ValueError` from `int(payload["sub"])` on a
non-numeral subject), which surfaces as a 500. -/
inductive AuthOutcome where
  | ok (u : UserRec)
  | err (e : ErrCode)
  | pyError
deriving DecidableEq, Repr

/-- The value `payload.get("jti")` as seen by the revocation query: `jti` is a
string when present (a numeric `jti` is already rejected by decoding). -/
def jtiOfPayload (d : Claims) : Option String :=
  match getClaim d "jti" with
  | some (JVal.str j) => some j
  | _ => none

/-- Query `db.query(RevokedToken).filter_by(jti=jti).first()`. When `jti` is
`None` the filter compiles to `jti IS NULL`, and the column is declared
`nullable=False`, so no row can match. -/
def findRevoked (s : DBState) (jti : Option String) : Option RevokedTokenRec :=
  match jti with
  | none => none
  | some j => s.revoked.find? (fun r => r.jti = j)

/-- Coercion `int(payload["sub"])` on a claim value: Python `int` of an int is the
int itself; of a string it parses a decimal numeral or raises
`ValueError` (`none`). -/
def pyIntOfJVal : JVal → Option Nat
  | JVal.num n => some n
  | JVal.str s => pyIntStr? s

/-- Model of `get_current_user(token, db)` (`routers/auth.py:293`): decode the
token (401 `invalid_token` on failure or missing `sub`), reject revoked
`jti` (401 `token_revoked`), then resolve `int(payload["sub"])` to a user
row by primary key (401 `user_not_found` if absent). A non-numeral
subject makes `int` raise (`pyError`). -/
def get_current_user (tok : Token) (s : DBState) (now : Nat) : AuthOutcome :=
  match decode_access_token tok now with
  | none => AuthOutcome.err ErrCode.invalid_token
  | some payload =>
    match getClaim payload "sub" with
    | none => AuthOutcome.err ErrCode.invalid_token
    | some subv =>
      if (findRevoked s (jtiOfPayload payload)).isSome then
        AuthOutcome.err ErrCode.token_revoked
      else
        match pyIntOfJVal subv with
        | none => AuthOutcome.pyError
        | some uid =>
          match s.users.find? (fun u => u.id = uid) with
          | none => AuthOutcome.err ErrCode.user_not_found
          | some u => AuthOutcome.ok u

/-- Outcome of `login`. -/
inductive LoginOutcome where
  | unprocessable
  | unauthorized
  | success (token : Token)
deriving DecidableEq, Repr

/-- Model of `login(data, db)` (`routers/auth.py:240`): 422 when username or
password is empty (Python falsiness of `""`), else look up the first user
whose email or phone number equals `username`; 401 `invalid_credentials`
if absent or the bcrypt check fails; otherwise mint a token with
`{"sub": str(user.id)}`. The state is only read, never written. -/
def login (verify : String → String → Bool) (username password : String)
    (s : DBState) (now : Nat) (jti : String) : LoginOutcome :=
  if username = "" || password = "" then LoginOutcome.unprocessable
  else
    match s.users.find? (fun u => u.email = username || u.phone_number = some username) with
    | none => LoginOutcome.unauthorized
    | some u =>
      if verify password u.password then
        LoginOutcome.success
          (create_access_token [("sub", JVal.str (pyStrNat u.id))] now jti none)
      else LoginOutcome.unauthorized

/-- Outcome of `logout`: the success acknowledgment, a propagated 401
from `get_current_user`, or an unhandled Python exception (500). -/
inductive LogoutOutcome where
  | success
  | authFail (e : ErrCode)
  | pyError
deriving DecidableEq, Repr

/-- Model of `logout(current, db)` (`routers/auth.py:357`). `get_current_user`
returns a `Users` ORM row, but the handler evaluates `current['jti']`;
SQLAlchemy declarative models define no `__getitem__`, so this raises
`TypeError` before `db.add(revoked)` is reached, and no revocation row
is ever inserted. The `success` constructor is what the code would
produce after `db.commit()`; no path reaches it. -/
def logout (tok : Token) (s : DBState) (now : Nat) : LogoutOutcome × DBState :=
  match get_current_user tok s now with
  | AuthOutcome.err e => (LogoutOutcome.authFail e, s)
  | AuthOutcome.pyError => (LogoutOutcome.pyError, s)
  | AuthOutcome.ok _ => (LogoutOutcome.pyError, s)

/-- The revocation-store insert `db.add(RevokedToken(jti=j)); db.commit()`
taken on its own (the data-layer operation `logout` was written to
perform). The column is `unique=True`, so inserting an already present
`jti` raises `IntegrityError` (`false`) and the transaction leaves the
table unchanged; otherwise the row is appended (`true`). -/
def revokeInsert (s : DBState) (j : String) (t : Nat) : DBState × Bool :=
  if s.revoked.any (fun r => r.jti = j) then (s, false)
  else ({ s with revoked := s.revoked ++ [⟨j, t⟩] }, true)

/-- Outcome of `initiate_registration`. -/
inductive InitiateOutcome where
  | invalid_student_id
  | already_registered
  | email_failed
  | success
deriving DecidableEq, Repr

/-- Model of `initiate_registration(data, db)` (`routers/auth.py:63`): verify the
student exists (400 `invalid_student_id`), forbid a duplicate user by
email or student id (400 `already_registered`), insert a user row whose
`remember_token` is the 6-digit OTP and commit, then email the OTP. If
the send raises, the handler deletes the row it created, commits, and
returns 500 `email_failed`. `otp` is the random OTP, `newId` the
autoincrement id assigned to the insert, `emailOk` whether SMTP
succeeds. -/
def initiate_registration (student_id : Nat) (email phone : String)
    (s : DBState) (otp : String) (newId : Nat) (emailOk : Bool) :
    InitiateOutcome × DBState :=
  match s.students.find? (fun st => st.id = student_id) with
  | none => (InitiateOutcome.invalid_student_id, s)
  | some st =>
    match s.users.find? (fun u => u.email = email || u.student_id = student_id) with
    | some _ => (InitiateOutcome.already_registered, s)
    | none =>
      let newUser : UserRec :=
        { id := newId, email := email, password := "", remember_token := some otp,
          first_name := st.first_name, last_name := st.last_name,
          phone_number := some phone, student_id := student_id }
      let s1 := { s with users := s.users ++ [newUser] }
      if emailOk then (InitiateOutcome.success, s1)
      else
        (InitiateOutcome.email_failed,
          { s1 with users := s1.users.filter (fun u => u.id ≠ newId) })

/-- The body of the OTP email sent by `send_otp_email`
(`routers/auth.py:38`): it announces a 15-minute expiry. -/
def send_otp_email_body (otp : String) : String :=
  "Your OTP code is: " ++ otp ++ "\nThis code will expire in 15 minutes."

/-- Outcome of `complete_registration`. -/
inductive CompleteOutcome where
  | invalid_otp
  | success (uid : Nat)
deriving DecidableEq, Repr

/-- Model of `complete_registration(data, db)` (`routers/auth.py:125`): find the
user by `student_id` and `remember_token = otp` (400 `invalid_otp` if
none — the message says "invalid or expired" but no timestamp is
consulted), then store the bcrypt hash of the password and clear the
OTP. `now` is the request clock, which the handler has available but
never reads. -/
def complete_registration (hash : String → String) (student_id : Nat)
    (otp password : String) (s : DBState) (_now : Nat) :
    CompleteOutcome × DBState :=
  match s.users.find? (fun u => u.student_id = student_id && u.remember_token = some otp) with
  | none => (CompleteOutcome.invalid_otp, s)
  | some u =>
    (CompleteOutcome.success u.id,
      { s with users := s.users.map (fun v =>
          if v.id = u.id then { v with password := hash password, remember_token := none }
          else v) })

/-- Outcome of `register_user`. -/
inductive RegisterOutcome where
  | invalid_student_id
  | email_exists
  | student_registered
  | success
deriving DecidableEq, Repr

/-- Model of `register_user(data, db)` (`routers/auth.py:171`): verify the student
exists, reject duplicates (distinguishing `email_exists` from
`student_registered`), then insert a user row with the bcrypt hash. -/
def register_user (hash : String → String) (student_id : Nat)
    (email phone password : String) (s : DBState) (newId : Nat) :
    RegisterOutcome × DBState :=
  match s.students.find? (fun st => st.id = student_id) with
  | none => (RegisterOutcome.invalid_student_id, s)
  | some st =>
    match s.users.find? (fun u => u.email = email || u.student_id = student_id) with
    | some existing =>
      if existing.email = email then (RegisterOutcome.email_exists, s)
      else (RegisterOutcome.student_registered, s)
    | none =>
      (RegisterOutcome.success,
        { s with users := s.users ++
            [{ id := newId, email := email, password := hash password,
               remember_token := none, first_name := st.first_name,
               last_name := st.last_name, phone_number := some phone,
               student_id := student_id }] })

/-- The JSON body of `PUT /profile`. -/
structure UpdateProfileSchema where
  email : Option String
  phone_number : Option String
  bio : Option String
  current_employer : Option String
  self_employed : Option String
  latest_education_level : Option String
  address : Option String
  profession_id : Option Nat
  dob : Option String
  start_date : Option String
  end_date : Option String
  faculty_id : Option Nat
  country_id : Option String
  department : Option String
  gender : Option Bool
  status : Option String
deriving DecidableEq, Repr

/-- Outcome of `update_profile`. -/
inductive UpdateOutcome where
  | authFail (e : ErrCode)
  | pyError
  | missing_fields
  | success
deriving DecidableEq, Repr

/-- Apply the `setattr` loop of `update_profile` to an existing
`personal_information` row: each schema field that is not `None`
overwrites the column. -/
def applyPiUpdates (data : UpdateProfileSchema) (pi : PersonalInfoRec) : PersonalInfoRec :=
  { pi with
    bio := data.bio.getD pi.bio,
    address := data.address.getD pi.address,
    current_employer := (data.current_employer.map some).getD pi.current_employer,
    self_employed := (data.self_employed.map some).getD pi.self_employed,
    latest_education_level :=
      (data.latest_education_level.map some).getD pi.latest_education_level,
    profession_id := (data.profession_id.map some).getD pi.profession_id,
    dob := (data.dob.map some).getD pi.dob,
    start_date := (data.start_date.map some).getD pi.start_date,
    end_date := (data.end_date.map some).getD pi.end_date,
    faculty_id := (data.faculty_id.map some).getD pi.faculty_id,
    country_id := (data.country_id.map some).getD pi.country_id,
    department := (data.department.map some).getD pi.department,
    gender := (data.gender.map some).getD pi.gender,
    status := (data.status.map some).getD pi.status }

/-- Model of `update_profile(data, current_user, db)` (`routers/auth.py:374`):
after authentication, update the user's email/phone when provided, then
upsert `personal_information`. Creating a missing row requires both
`bio` and `address` (422 `missing_fields`, raised before any commit, so
the session's pending user change is discarded). All writes are
committed together at the end. -/
def update_profile (data : UpdateProfileSchema) (tok : Token)
    (s : DBState) (now : Nat) : UpdateOutcome × DBState :=
  match get_current_user tok s now with
  | AuthOutcome.err e => (UpdateOutcome.authFail e, s)
  | AuthOutcome.pyError => (UpdateOutcome.pyError, s)
  | AuthOutcome.ok cu =>
    let users' := s.users.map (fun u =>
      if u.id = cu.id then
        { u with email := data.email.getD u.email,
                 phone_number := (data.phone_number.map some).getD u.phone_number }
      else u)
    match s.personal.find? (fun pi => pi.user_id = cu.id) with
    | none =>
      match data.bio, data.address with
      | some bio, some address =>
        (UpdateOutcome.success,
          { s with users := users',
                   personal := s.personal ++
                     [{ user_id := cu.id, bio := bio, address := address,
                        photo := none,
                        current_employer := data.current_employer,
                        self_employed := data.self_employed,
                        latest_education_level := data.latest_education_level,
                        profession_id := data.profession_id,
                        dob := data.dob, start_date := data.start_date,
                        end_date := data.end_date, faculty_id := data.faculty_id,
                        country_id := data.country_id, department := data.department,
                        gender := data.gender, status := data.status }] })
      | _, _ => (UpdateOutcome.missing_fields, s)
    | some _ =>
      (UpdateOutcome.success,
        { s with users := users',
                 personal := s.personal.map (fun pi =>
                   if pi.user_id = cu.id then applyPiUpdates data pi else pi) })

/-! ### Operation sequences over the store -/

/-- One API operation of the auth router, with its nondeterministic
inputs (clock readings, fresh ids, OTPs, SMTP success) made explicit. -/
inductive Op where
  | loginOp (username password : String) (now : Nat) (jti : String)
  | validateOp (tok : Token) (now : Nat)
  | logoutOp (tok : Token) (now : Nat)
  | registerOp (student_id : Nat) (email phone password : String) (newId : Nat)
  | initiateOp (student_id : Nat) (email phone otp : String) (newId : Nat) (emailOk : Bool)
  | completeOp (student_id : Nat) (otp password : String) (now : Nat)
  | updateProfileOp (data : UpdateProfileSchema) (tok : Token) (now : Nat)

/-- The store after one operation. `login` and `GET /verify-token`
(`validateOp`) only read, so their state effect does not depend on the
credential check. -/
def step (hash : String → String) (s : DBState) : Op → DBState
  | Op.loginOp _ _ _ _ => s
  | Op.validateOp _ _ => s
  | Op.logoutOp tok now => (logout tok s now).2
  | Op.registerOp sid email phone password newId =>
    (register_user hash sid email phone password s newId).2
  | Op.initiateOp sid email phone otp newId emailOk =>
    (initiate_registration sid email phone s otp newId emailOk).2
  | Op.completeOp sid otp password now =>
    (complete_registration hash sid otp password s now).2
  | Op.updateProfileOp data tok now => (update_profile data tok s now).2

/-- The store after a sequence of operations. -/
def run (hash : String → String) (s : DBState) : List Op → DBState
  | [] => s
  | op :: ops => run hash (step hash s op) ops


/-! ### Condition predicates used to state the spec's validation property -/

/-- The claims dict a signed token carries (`[]` for an unverifiable
token; used only under `isSigned`). -/
def payloadOf : Token → Claims
  | Token.signed d => d
  | Token.invalid => []

/-- Whether the token's signature verifies under `SECRET_KEY`. -/
def isSigned : Token → Bool
  | Token.signed _ => true
  | Token.invalid => false

/-- Whether a payload uses only the registered claims this service issues
and inspects (`sub`, `exp`, `jti`); decoding of other registered claims
(`aud`, `nbf`, `iss`) is outside the model. -/
def standardClaims (d : Claims) : Bool :=
  d.all (fun p => p.1 = "sub" || p.1 = "exp" || p.1 = "jti")

/-- Whether a present `sub` claim is a string holding a decimal numeral
(so that `int(payload["sub"])` cannot raise). -/
def subNumeral (d : Claims) : Bool :=
  match getClaim d "sub" with
  | some (JVal.str x) => (pyIntStr? x).isSome
  | some (JVal.num _) => true
  | none => true

/-- Whether the payload's subject claim is present, is a decimal-numeral
string, and resolves to an existing user row. -/
def subResolves (d : Claims) (s : DBState) : Bool :=
  match getClaim d "sub" with
  | some (JVal.str x) =>
    match pyIntStr? x with
    | some uid => (s.users.find? (fun u => u.id = uid)).isSome
    | none => false
  | _ => false

/-! ### Sample rows used to evaluate the theorems on concrete inputs -/

/-- A registered user row. -/
def sampleUser : UserRec :=
  { id := 1, email := "alice@example.com", password := "bcrypt$correctpass",
    remember_token := none, first_name := "Alice", last_name := "Doe",
    phone_number := some "+250788000001", student_id := 7 }

/-- The student row `sampleUser` registered from. -/
def sampleStudent : StudentRec := { id := 7, first_name := "Alice", last_name := "Doe" }

/-- A student with no user account yet. -/
def sampleStudent2 : StudentRec := { id := 8, first_name := "Carol", last_name := "U" }

/-- A store holding two students and one user, nothing revoked. -/
def sampleState : DBState :=
  { students := [sampleStudent, sampleStudent2], users := [sampleUser],
    revoked := [], personal := [] }

/-- The store `sampleState` with the identifier `"j1"` already revoked. -/
def sampleRevokedState : DBState :=
  { sampleState with revoked := [{ jti := "j1", revoked_at := 5 }] }

/-- A stand-in for the bcrypt hash black box. -/
def sampleHash (plain : String) : String := "bcrypt$" ++ plain

/-- A stand-in for the bcrypt verify black box, matching `sampleHash`. -/
def sampleVerify (plain hashed : String) : Bool := hashed = sampleHash plain

/-- A well-signed token for `sampleUser` issued at time 0 (expiry 3600)
with identifier `"j1"`. -/
def sampleToken : Token :=
  Token.signed [("sub", JVal.str "1"), ("exp", JVal.num 3600), ("jti", JVal.str "j1")]

/-- A well-signed, unexpired token whose subject (user id 2) has no row
in `sampleState`. -/
def sampleGhostToken : Token :=
  Token.signed [("sub", JVal.str "2"), ("exp", JVal.num 3600), ("jti", JVal.str "j2")]

/-! ## Theorems

First the arithmetic facts about the decimal numeral model, then shared
lemmas about the handlers, then the verification results. -/

theorem fromDigits_toDecimalAux (fuel : Nat) :
    ∀ n, n ≤ fuel → fromDigits (toDecimalAux fuel n) = n := by
  induction fuel with
  | zero =>
    intro n hn
    interval_cases n
    rfl
  | succ fuel ih =>
    intro n hn
    by_cases h0 : n = 0
    · simp [toDecimalAux, h0, fromDigits]
    · have hdiv : n / 10 ≤ fuel := by
        have hlt : n / 10 < n := Nat.div_lt_self (Nat.pos_of_ne_zero h0) (by omega)
        omega
      simp only [toDecimalAux, h0, if_false, fromDigits, ih (n / 10) hdiv]
      omega

theorem fromDigits_toDecimal (n : Nat) : fromDigits (toDecimal n) = n :=
  fromDigits_toDecimalAux n n (Nat.le_refl n)

theorem toDecimalAux_lt (fuel : Nat) :
    ∀ n d, d ∈ toDecimalAux fuel n → d < 10 := by
  induction fuel with
  | zero => intro n d hd; simp [toDecimalAux] at hd
  | succ fuel ih =>
    intro n d hd
    by_cases h0 : n = 0
    · simp [toDecimalAux, h0] at hd
    · simp only [toDecimalAux, h0, if_false, List.mem_cons] at hd
      rcases hd with h | h
      · subst h; exact Nat.mod_lt _ (by omega)
      · exact ih _ _ h

theorem toDecimal_lt (n d : Nat) (hd : d ∈ toDecimal n) : d < 10 :=
  toDecimalAux_lt n n d hd

theorem charDigit_digitChar : ∀ d, d < 10 → charDigit? (digitChar d) = some d := by
  decide

theorem parseDigits_map_digitChar :
    ∀ l : List Nat, (∀ d ∈ l, d < 10) →
      parseDigits (l.map digitChar) = some l := by
  intro l
  induction l with
  | nil => intro _; rfl
  | cons d ds ih =>
    intro h
    have hd : d < 10 := h d (List.mem_cons_self d ds)
    have hds : ∀ x ∈ ds, x < 10 := fun x hx => h x (List.mem_cons_of_mem d hx)
    simp only [List.map_cons, parseDigits, charDigit_digitChar d hd, ih hds]

theorem toDecimalAux_ne_nil (fuel n : Nat) (h0 : n ≠ 0) (hf : fuel ≠ 0) :
    toDecimalAux fuel n ≠ [] := by
  cases fuel with
  | zero => exact absurd rfl hf
  | succ fuel => simp [toDecimalAux, h0]

/-- Round-trip of the Python builtins used by login and the validator:
`int(str(n)) = n`. -/
theorem pyIntStr_pyStrNat (n : Nat) : pyIntStr? (pyStrNat n) = some n := by
  by_cases h0 : n = 0
  · subst h0; rfl
  · have hne : toDecimal n ≠ [] := toDecimalAux_ne_nil n n h0 h0
    have hchars : (String.mk ((toDecimal n).reverse.map digitChar)).data
        = (toDecimal n).reverse.map digitChar := rfl
    have hlt : ∀ d ∈ (toDecimal n).reverse, d < 10 := by
      intro d hd
      exact toDecimal_lt n d (List.mem_reverse.mp hd)
    have hparse : parseDigits ((toDecimal n).reverse.map digitChar)
        = some (toDecimal n).reverse := parseDigits_map_digitChar _ hlt
    have hnil : (toDecimal n).reverse.map digitChar ≠ [] := by
      intro hcontra
      rcases List.map_eq_nil_iff.mp hcontra with h
      exact hne (List.reverse_eq_nil_iff.mp h)
    unfold pyStrNat pyIntStr?
    simp only [h0, if_false, hchars]
    cases hmap : (toDecimal n).reverse.map digitChar with
    | nil => exact absurd hmap hnil
    | cons c cs =>
      rw [← hmap, hparse]
      simp [List.reverse_reverse, fromDigits_toDecimal]


/-! ### Shared lemmas about the handlers -/

theorem find_eq_of_nodup_ids (l : List UserRec) (u : UserRec)
    (hnd : (l.map (fun v => v.id)).Nodup) (hmem : u ∈ l) :
    l.find? (fun v => v.id = u.id) = some u := by
  induction l with
  | nil => cases hmem
  | cons a l ih =>
    rcases List.mem_cons.mp hmem with rfl | hmem'
    · simp [List.find?]
    · have hne : a.id ≠ u.id := by
        intro he
        have hmm : a.id ∈ l.map (fun v => v.id) :=
          he ▸ List.mem_map_of_mem (fun v => v.id) hmem'
        exact (List.nodup_cons.mp (by simpa using hnd)).1 hmm
      have hnd' : (l.map (fun v => v.id)).Nodup :=
        (List.nodup_cons.mp (by simpa using hnd)).2
      rw [List.find?_cons_of_neg _ (by simpa using hne)]
      exact ih hnd' hmem'

/-- Once a payload's `jti` is in the revocation store, `get_current_user`
can never return a user: it fails with `invalid_token` (decode) or
`token_revoked` (store lookup). -/
theorem get_current_user_revoked_not_ok (d : Claims) (s : DBState)
    (now : Nat) (j : String)
    (hj : j ∈ revokedJtis s) (hpay : jtiOfPayload d = some j) :
    ∀ u, get_current_user (Token.signed d) s now ≠ AuthOutcome.ok u := by
  intro u
  have hrev : (findRevoked s (jtiOfPayload d)).isSome = true := by
    rw [hpay]
    rcases List.mem_map.mp hj with ⟨r, hrmem, hrj⟩
    have hex : ∃ x ∈ s.revoked, (fun r => decide (r.jti = j)) x = true :=
      ⟨r, hrmem, by simp [hrj]⟩
    simpa [findRevoked] using List.find?_isSome.mpr hex
  have hdec : decode_access_token (Token.signed d) now = none ∨
      decode_access_token (Token.signed d) now = some d := by
    unfold decode_access_token
    by_cases hv : (validateExp d now && validateSub d && validateJti d) = true
    · right; simp [hv]
    · left; simp [hv]
  unfold get_current_user
  rcases hdec with h | h <;> rw [h]
  · simp
  · cases hsub : getClaim d "sub" with
    | none => simp [hsub]
    | some subv => simp [hsub, hrev]

theorem step_revoked_eq (hash : String → String) (s : DBState) (op : Op) :
    (step hash s op).revoked = s.revoked := by
  cases op with
  | loginOp _ _ _ _ => rfl
  | validateOp _ _ => rfl
  | logoutOp tok now =>
    show (logout tok s now).2.revoked = s.revoked
    unfold logout
    repeat' split
    all_goals rfl
  | registerOp sid email phone password newId =>
    show (register_user hash sid email phone password s newId).2.revoked = s.revoked
    unfold register_user
    repeat' split
    all_goals rfl
  | initiateOp sid email phone otp newId emailOk =>
    show (initiate_registration sid email phone s otp newId emailOk).2.revoked = s.revoked
    unfold initiate_registration
    repeat' split
    all_goals rfl
  | completeOp sid otp password now =>
    show (complete_registration hash sid otp password s now).2.revoked = s.revoked
    unfold complete_registration
    repeat' split
    all_goals rfl
  | updateProfileOp data tok now =>
    show (update_profile data tok s now).2.revoked = s.revoked
    unfold update_profile
    repeat' split
    all_goals rfl

theorem run_revoked_eq (hash : String → String) (s : DBState) (ops : List Op) :
    (run hash s ops).revoked = s.revoked := by
  induction ops generalizing s with
  | nil => rfl
  | cons op ops ih => rw [run, ih, step_revoked_eq]

/-! ### Claim theorems -/

/-- C2: a jti present in the revocation store is still present after any
sequence of auth-router operations (no operation deletes a revocation
row, and there is no un-revoke transition), and no well-signed token
carrying that jti ever validates in any reachable state. -/
theorem revoked_token_never_validates_again (hash : String → String)
    (s : DBState) (ops : List Op) (j : String)
    (hj : j ∈ revokedJtis s) :
    j ∈ revokedJtis (run hash s ops) ∧
    ∀ (d : Claims) (now : Nat) (u : UserRec), jtiOfPayload d = some j →
      get_current_user (Token.signed d) (run hash s ops) now ≠ AuthOutcome.ok u := by
  have hrev : revokedJtis (run hash s ops) = revokedJtis s := by
    unfold revokedJtis
    rw [run_revoked_eq]
  refine ⟨by rw [hrev]; exact hj, ?_⟩
  intro d now u hpay
  exact get_current_user_revoked_not_ok d (run hash s ops) now j
    (by rw [hrev]; exact hj) hpay u

/-- C2 witness: the invariant evaluated on a concrete revoked store and a
concrete operation sequence containing a logout and a registration. -/
theorem revoked_token_never_validates_again_witness :
    "j1" ∈ revokedJtis (run sampleHash sampleRevokedState
        [Op.logoutOp sampleToken 10, Op.registerOp 7 "bob@example.com" "+250788000002" "pw12ab" 2]) ∧
    get_current_user (Token.signed [("sub", JVal.str "1"), ("jti", JVal.str "j1")])
        (run sampleHash sampleRevokedState
          [Op.logoutOp sampleToken 10, Op.registerOp 7 "bob@example.com" "+250788000002" "pw12ab" 2]) 20
      ≠ AuthOutcome.ok sampleUser :=
  ⟨(revoked_token_never_validates_again sampleHash sampleRevokedState
      [Op.logoutOp sampleToken 10, Op.registerOp 7 "bob@example.com" "+250788000002" "pw12ab" 2]
      "j1" (by decide)).1,
   (revoked_token_never_validates_again sampleHash sampleRevokedState
      [Op.logoutOp sampleToken 10, Op.registerOp 7 "bob@example.com" "+250788000002" "pw12ab" 2]
      "j1" (by decide)).2
     [("sub", JVal.str "1"), ("jti", JVal.str "j1")] 20 sampleUser (by decide)⟩

/-- C3: on a store where `sampleToken` authenticates as `sampleUser`,
`logout` does not insert a revocation entry and does not return the
success acknowledgment: `get_current_user` hands back a `Users` row, the
handler subscripts it with `['jti']`, and the resulting `TypeError`
aborts the request (500) with the store unchanged and the revocation
table still empty. -/
theorem logout_type_error_no_revocation :
    get_current_user sampleToken sampleState 10 = AuthOutcome.ok sampleUser ∧
    logout sampleToken sampleState 10 = (LogoutOutcome.pyError, sampleState) ∧
    revokedJtis (logout sampleToken sampleState 10).2 = [] := by decide

/-- C5 counterexample: `sampleToken` carries expiry timestamp 3600, and
validating it exactly at time 3600 succeeds — the claim that validation
at the expiry instant is rejected is false (python-jose rejects only
when `exp < now`). -/
theorem expiry_instant_accepted :
    getClaim (payloadOf sampleToken) "exp" = some (JVal.num 3600) ∧
    get_current_user sampleToken sampleState 3600 = AuthOutcome.ok sampleUser := by decide

/-- C5 (amended): the expiry bound is inclusive — a token with integer
expiry `e` passes the expiry check iff `now ≤ e`, and is rejected with
`invalid_token` precisely once `e < now`. -/
theorem expiry_boundary_inclusive (d : Claims) (e now : Nat) (s : DBState)
    (hexp : getClaim d "exp" = some (JVal.num e)) :
    (validateExp d now = true ↔ now ≤ e) ∧
    (e < now →
      get_current_user (Token.signed d) s now = AuthOutcome.err ErrCode.invalid_token) := by
  have hve : validateExp d now = decide (¬ e < now) := by
    unfold validateExp
    rw [hexp]
  constructor
  · rw [hve]
    simp [Nat.not_lt]
  · intro hlt
    have hv : validateExp d now = false := by
      rw [hve]
      simp [hlt]
    unfold get_current_user decode_access_token
    simp [hv]

/-- C5 witness: the boundary property evaluated at expiry 50, time 50. -/
theorem expiry_boundary_inclusive_witness :
    (validateExp [("exp", JVal.num 50)] 50 = true ↔ 50 ≤ 50) ∧
    (50 < 50 →
      get_current_user (Token.signed [("exp", JVal.num 50)]) sampleState 50 =
        AuthOutcome.err ErrCode.invalid_token) :=
  expiry_boundary_inclusive [("exp", JVal.num 50)] 50 50 sampleState (by decide)

theorem mem_revokedJtis_revokeInsert (s : DBState) (j : String) (t : Nat) :
    j ∈ revokedJtis (revokeInsert s j t).1 := by
  unfold revokeInsert
  by_cases hc : s.revoked.any (fun r => r.jti = j) = true
  · simp only [hc, if_true]
    rcases List.any_eq_true.mp hc with ⟨r, hrmem, hrj⟩
    exact List.mem_map.mpr ⟨r, hrmem, by simpa using hrj⟩
  · simp only [hc, if_false]
    unfold revokedJtis
    simp

theorem any_of_mem_revokedJtis (s : DBState) (j : String)
    (hj : j ∈ revokedJtis s) : s.revoked.any (fun r => r.jti = j) = true := by
  rcases List.mem_map.mp hj with ⟨r, hrmem, hrj⟩
  exact List.any_eq_true.mpr ⟨r, hrmem, by simp [hrj]⟩

theorem revokeInsert_of_mem (s : DBState) (j : String) (t : Nat)
    (hj : j ∈ revokedJtis s) : (revokeInsert s j t).1 = s := by
  unfold revokeInsert
  rw [any_of_mem_revokedJtis s j hj]
  rfl

/-- C6: revoking an identifier a second time is a no-op on the store
(the `unique=True` column makes the duplicate insert fail without
deleting anything): the identifier is still revoked afterwards, and no
well-signed token carrying it can validate. -/
theorem revoke_twice_still_invalid (s : DBState) (j : String) (t1 t2 : Nat) :
    (revokeInsert (revokeInsert s j t1).1 j t2).1 = (revokeInsert s j t1).1 ∧
    j ∈ revokedJtis (revokeInsert (revokeInsert s j t1).1 j t2).1 ∧
    ∀ (d : Claims) (now : Nat) (u : UserRec), jtiOfPayload d = some j →
      get_current_user (Token.signed d) (revokeInsert (revokeInsert s j t1).1 j t2).1 now
        ≠ AuthOutcome.ok u := by
  have h1 : j ∈ revokedJtis (revokeInsert s j t1).1 :=
    mem_revokedJtis_revokeInsert s j t1
  have heq : (revokeInsert (revokeInsert s j t1).1 j t2).1 = (revokeInsert s j t1).1 :=
    revokeInsert_of_mem _ j t2 h1
  refine ⟨heq, by rw [heq]; exact h1, ?_⟩
  intro d now u hpay
  exact get_current_user_revoked_not_ok d _ now j (by rw [heq]; exact h1) hpay u

/-- C6 witness: double revocation of `"j9"` on the sample store, and the
failure of a token carrying `"j9"` to validate afterwards. -/
theorem revoke_twice_still_invalid_witness :
    (revokeInsert (revokeInsert sampleState "j9" 1).1 "j9" 2).1 =
        (revokeInsert sampleState "j9" 1).1 ∧
    "j9" ∈ revokedJtis (revokeInsert (revokeInsert sampleState "j9" 1).1 "j9" 2).1 ∧
    get_current_user (Token.signed [("sub", JVal.str "1"), ("jti", JVal.str "j9")])
        (revokeInsert (revokeInsert sampleState "j9" 1).1 "j9" 2).1 0
      ≠ AuthOutcome.ok sampleUser :=
  ⟨(revoke_twice_still_invalid sampleState "j9" 1 2).1,
   (revoke_twice_still_invalid sampleState "j9" 1 2).2.1,
   (revoke_twice_still_invalid sampleState "j9" 1 2).2.2
     [("sub", JVal.str "1"), ("jti", JVal.str "j9")] 0 sampleUser (by decide)⟩

/-- C7 counterexample: a token issued with `{"sub": "1"}` at time 0 has
payload keys exactly `sub`, `exp`, `jti` — it carries no issued-at
(`iat`) timestamp, contrary to the claim. -/
theorem create_access_token_no_issued_at :
    claimKeys (payloadOf (create_access_token [("sub", JVal.str "1")] 0 "j1" none)) =
        ["sub", "exp", "jti"] ∧
    getClaim (payloadOf (create_access_token [("sub", JVal.str "1")] 0 "j1" none)) "iat" =
        none := by decide

/-- C7 (amended): a token issued for subject `x` is signed and its
payload holds exactly the subject claim, an expiry equal to issuance
time plus the fixed 60-minute TTL, and the supplied fresh identifier —
no issued-at claim — and issuance touches no persistent state (the login
operation leaves the store unchanged). -/
theorem create_access_token_payload_shape (x : String) (now : Nat) (jti : String) :
    (∃ d, create_access_token [("sub", JVal.str x)] now jti none = Token.signed d ∧
      getClaim d "sub" = some (JVal.str x) ∧
      getClaim d "exp" = some (JVal.num (now + ACCESS_TOKEN_EXPIRE_MINUTES * 60)) ∧
      getClaim d "jti" = some (JVal.str jti) ∧
      getClaim d "iat" = none ∧
      claimKeys d = ["sub", "exp", "jti"]) ∧
    ∀ (hash : String → String) (s : DBState) (username password : String)
      (now2 : Nat) (jti2 : String),
      step hash s (Op.loginOp username password now2 jti2) = s := by
  exact ⟨⟨_, rfl, rfl, rfl, rfl, rfl, rfl⟩, fun _ _ _ _ _ _ => rfl⟩

/-- C9: completing a registration consults no clock — its result is the
same at any two request times — and it succeeds exactly when some user
row matches the submitted student id and stored OTP, however old; the
only rejection is a mismatch (`invalid_otp`), never staleness, although
the OTP email announces a 15-minute expiry. -/
theorem complete_registration_no_expiry_check (hash : String → String)
    (sid : Nat) (otp pwd : String) (s : DBState) (n1 n2 : Nat) :
    complete_registration hash sid otp pwd s n1 =
        complete_registration hash sid otp pwd s n2 ∧
    ((complete_registration hash sid otp pwd s n1).1 ≠ CompleteOutcome.invalid_otp ↔
      ∃ u ∈ s.users, u.student_id = sid ∧ u.remember_token = some otp) ∧
    send_otp_email_body otp =
      "Your OTP code is: " ++ otp ++ "\nThis code will expire in 15 minutes." := by
  refine ⟨rfl, ?_, rfl⟩
  unfold complete_registration
  cases hfind : s.users.find? (fun u => u.student_id = sid && u.remember_token = some otp) with
  | none =>
    simp only [ne_eq, not_true_eq_false, false_iff]
    intro ⟨u, hu, h1, h2⟩
    have hnone := List.find?_eq_none.mp hfind u hu
    simp [h1, h2] at hnone
  | some u =>
    simp only [ne_eq, reduceCtorEq, not_false_eq_true, true_iff]
    have hmem := List.mem_of_find?_eq_some hfind
    have hp := List.find?_some hfind
    simp only [Bool.and_eq_true, decide_eq_true_eq] at hp
    exact ⟨u, hmem, hp.1, hp.2⟩

/-- C10: a well-signed token whose payload has a subject but no `jti`
can never fail with `token_revoked` (the revocation lookup runs with a
`None` identifier against a non-nullable column and matches nothing),
and its validation outcome is independent of the revocation store. -/
theorem missing_jti_never_revoked (d : Claims) (s : DBState) (now : Nat)
    (rev2 : List RevokedTokenRec)
    (hjti : getClaim d "jti" = none)
    (hsub : (getClaim d "sub").isSome = true) :
    get_current_user (Token.signed d) s now ≠ AuthOutcome.err ErrCode.token_revoked ∧
    get_current_user (Token.signed d) s now =
      get_current_user (Token.signed d) { s with revoked := rev2 } now := by
  have hpay : jtiOfPayload d = none := by
    unfold jtiOfPayload
    rw [hjti]
  have hvj : validateJti d = true := by
    unfold validateJti
    rw [hjti]
  unfold get_current_user decode_access_token
  by_cases hv : (validateExp d now && validateSub d && validateJti d) = true
  · simp only [hv, if_true]
    cases hs : getClaim d "sub" with
    | none =>
      rw [hs] at hsub
      simp at hsub
    | some subv =>
      simp only [hpay, findRevoked, Option.isSome_none, Bool.false_eq_true, if_false]
      cases pyIntOfJVal subv with
      | none => simp
      | some uid =>
        show (match s.users.find? (fun u => u.id = uid) with
          | none => AuthOutcome.err ErrCode.user_not_found
          | some u => AuthOutcome.ok u) ≠ AuthOutcome.err ErrCode.token_revoked ∧ _
        cases s.users.find? (fun u => u.id = uid) <;> simp
  · simp [hv]

/-- C10 witness: a signed `{"sub": "1"}` payload with no `jti` evaluated
against the store with `"j1"` revoked, versus the same store with an
empty revocation table. -/
theorem missing_jti_never_revoked_witness :
    get_current_user (Token.signed [("sub", JVal.str "1")]) sampleRevokedState 0
        ≠ AuthOutcome.err ErrCode.token_revoked ∧
    get_current_user (Token.signed [("sub", JVal.str "1")]) sampleRevokedState 0 =
      get_current_user (Token.signed [("sub", JVal.str "1")])
        { sampleRevokedState with revoked := [] } 0 :=
  missing_jti_never_revoked [("sub", JVal.str "1")] sampleRevokedState 0 []
    (by decide) (by decide)

/-- C8: when the student exists, no duplicate user exists, and the OTP
email send fails, registration initiation reports `email_failed` (500)
and the store is exactly as before: the user row inserted mid-handler is
deleted again, so no record is left behind. -/
theorem initiate_email_failure_rolls_back (s : DBState) (sid : Nat)
    (email phone otp : String) (newId : Nat) (st : StudentRec)
    (hstud : s.students.find? (fun t => t.id = sid) = some st)
    (hdup : s.users.find? (fun u => u.email = email || u.student_id = sid) = none)
    (hfresh : ∀ u ∈ s.users, u.id ≠ newId) :
    initiate_registration sid email phone s otp newId false =
      (InitiateOutcome.email_failed, s) := by
  unfold initiate_registration
  rw [hstud, hdup]
  have hfil : (s.users ++
      [({ id := newId, email := email, password := "", remember_token := some otp,
          first_name := st.first_name, last_name := st.last_name,
          phone_number := some phone, student_id := sid } : UserRec)]).filter
        (fun u => u.id ≠ newId) = s.users := by
    rw [List.filter_append]
    have h1 : s.users.filter (fun u => decide (u.id ≠ newId)) = s.users :=
      List.filter_eq_self.mpr (fun u hu => by simpa using hfresh u hu)
    rw [h1]
    simp
  simp only [Bool.false_eq_true, if_false, hfil]

/-- C8 witness: a failed initiation for student 7 with a fresh email on
a one-user store leaves the store unchanged. -/
theorem initiate_email_failure_rolls_back_witness :
    initiate_registration 8 "carol@example.com" "+250788000003" sampleState "123456" 2 false =
      (InitiateOutcome.email_failed, sampleState) :=
  initiate_email_failure_rolls_back sampleState 8 "carol@example.com" "+250788000003"
    "123456" 2 sampleStudent2 (by decide) (by decide) (by decide)

/-- C4: for a stored user matched by identifier and password, login
succeeds with a token whose subject claim is `str(user.id)`, and
validating that token before expiry, with its identifier unrevoked,
recovers the same user record. -/
theorem login_issue_validate_roundtrip
    (verify : String → String → Bool) (s : DBState)
    (username password : String) (u : UserRec) (now now2 : Nat) (jti : String)
    (husername : username ≠ "") (hpassword : password ≠ "")
    (hfind : s.users.find? (fun v => v.email = username || v.phone_number = some username)
      = some u)
    (hverify : verify password u.password = true)
    (hids : (s.users.map (fun v => v.id)).Nodup)
    (hbefore : now2 < now + ACCESS_TOKEN_EXPIRE_MINUTES * 60)
    (hrev : jti ∉ revokedJtis s) :
    ∃ tok, login verify username password s now jti = LoginOutcome.success tok ∧
      get_current_user tok s now2 = AuthOutcome.ok u := by
  set pl : Claims := [("sub", JVal.str (pyStrNat u.id)),
    ("exp", JVal.num (now + ACCESS_TOKEN_EXPIRE_MINUTES * 60)),
    ("jti", JVal.str jti)] with hpl
  have hlogin : login verify username password s now jti =
      LoginOutcome.success (Token.signed pl) := by
    unfold login
    have hcond : (decide (username = "") || decide (password = "")) = false := by
      simp [husername, hpassword]
    rw [hcond]
    simp only [Bool.false_eq_true, if_false]
    rw [hfind]
    simp only [hverify, if_true]
    rfl
  have h1 : getClaim pl "exp" = some (JVal.num (now + ACCESS_TOKEN_EXPIRE_MINUTES * 60)) := rfl
  have h2 : getClaim pl "sub" = some (JVal.str (pyStrNat u.id)) := rfl
  have h3 : jtiOfPayload pl = some jti := rfl
  have h4 : validateSub pl = true := rfl
  have h5 : validateJti pl = true := rfl
  have hv : validateExp pl now2 = true := by
    unfold validateExp
    rw [h1]
    simp only [decide_eq_true_eq]
    omega
  have hdec : decode_access_token (Token.signed pl) now2 = some pl := by
    show (if (validateExp pl now2 && validateSub pl && validateJti pl) = true
      then some pl else none) = some pl
    rw [hv, h4, h5]
    rfl
  have hfindrev : s.revoked.find? (fun r => r.jti = jti) = none :=
    List.find?_eq_none.mpr (fun r hr => by
      simp only [decide_eq_true_eq]
      intro hrj
      exact hrev (List.mem_map.mpr ⟨r, hr, hrj⟩))
  have h6 : findRevoked s (jtiOfPayload pl) = none := by
    rw [h3]
    exact hfindrev
  have hmem : u ∈ s.users := List.mem_of_find?_eq_some hfind
  have hfindid : s.users.find? (fun v => v.id = u.id) = some u :=
    find_eq_of_nodup_ids s.users u hids hmem
  have h7 : pyIntOfJVal (JVal.str (pyStrNat u.id)) = some u.id := pyIntStr_pyStrNat u.id
  refine ⟨Token.signed pl, hlogin, ?_⟩
  unfold get_current_user
  rw [hdec]
  simp only [h2, h6, Option.isSome_none, Bool.false_eq_true, if_false, h7, hfindid]

/-- C4 witness: Alice logs in with her password on the sample store at
time 100 and the minted token validates at time 200 back to her row. -/
theorem login_issue_validate_roundtrip_witness :
    ∃ tok, login sampleVerify "alice@example.com" "correctpass" sampleState 100 "j9" =
        LoginOutcome.success tok ∧
      get_current_user tok sampleState 200 = AuthOutcome.ok sampleUser :=
  login_issue_validate_roundtrip sampleVerify sampleState "alice@example.com" "correctpass"
    sampleUser 100 200 "j9" (by decide) (by decide) (by decide) (by decide) (by decide)
    (by decide) (by decide)

theorem validateSub_of_subResolves (d : Claims) (s : DBState)
    (h : subResolves d s = true) : validateSub d = true := by
  unfold subResolves at h
  unfold validateSub
  cases hs : getClaim d "sub" with
  | none => rfl
  | some v =>
    cases v with
    | str x => rfl
    | num n =>
      rw [hs] at h
      simp at h

/-- C1 (amended): over tokens that carry only the claims this service
issues (`sub`, `exp`, `jti`) and whose subject, if a string, is a
decimal numeral, validation returns a user iff the signature verifies,
the expiry (when present) has not strictly passed, the `jti` claim is
well-typed and not in the revocation store, and the subject claim is
present and resolves to an existing user row; in every other case it
fails with a 401 carrying one of `invalid_token`, `token_revoked`,
`user_not_found`. -/
theorem validate_success_iff (tok : Token) (s : DBState) (now : Nat)
    (hscope : isSigned tok = true → standardClaims (payloadOf tok) = true)
    (hnumeral : isSigned tok = true → subNumeral (payloadOf tok) = true) :
    ((∃ u, get_current_user tok s now = AuthOutcome.ok u) ↔
      (isSigned tok = true ∧ validateExp (payloadOf tok) now = true ∧
        validateJti (payloadOf tok) = true ∧
        findRevoked s (jtiOfPayload (payloadOf tok)) = none ∧
        subResolves (payloadOf tok) s = true)) ∧
    ((¬ ∃ u, get_current_user tok s now = AuthOutcome.ok u) →
      ∃ e, get_current_user tok s now = AuthOutcome.err e) := by
  cases tok with
  | invalid =>
    have hO : get_current_user Token.invalid s now = AuthOutcome.err ErrCode.invalid_token := rfl
    constructor
    · constructor
      · intro ⟨u, hu⟩
        rw [hO] at hu
        cases hu
      · intro ⟨hsig, _⟩
        cases hsig
    · intro _
      exact ⟨ErrCode.invalid_token, hO⟩
  | signed d =>
    simp only [payloadOf, isSigned] at hscope hnumeral ⊢
    have hnum : subNumeral d = true := hnumeral trivial
    by_cases hv : (validateExp d now && validateSub d && validateJti d) = true
    · have hdec : decode_access_token (Token.signed d) now = some d := by
        show (if (validateExp d now && validateSub d && validateJti d) = true
          then some d else none) = some d
        rw [hv]
        rfl
      have hv' := hv
      simp only [Bool.and_eq_true] at hv'
      obtain ⟨⟨hexp, hsubv⟩, hjtiv⟩ := hv'
      cases hs : getClaim d "sub" with
      | none =>
        have hO : get_current_user (Token.signed d) s now =
            AuthOutcome.err ErrCode.invalid_token := by
          unfold get_current_user
          rw [hdec]
          simp only [hs]
        have hres : subResolves d s = false := by
          unfold subResolves
          rw [hs]
        constructor
        · constructor
          · intro ⟨u, hu⟩
            rw [hO] at hu
            cases hu
          · intro ⟨_, _, _, _, hr⟩
            rw [hres] at hr
            cases hr
        · intro _
          exact ⟨ErrCode.invalid_token, hO⟩
      | some subv =>
        by_cases hr : (findRevoked s (jtiOfPayload d)).isSome = true
        · have hO : get_current_user (Token.signed d) s now =
              AuthOutcome.err ErrCode.token_revoked := by
            unfold get_current_user
            rw [hdec]
            simp only [hs, hr, if_true]
          constructor
          · constructor
            · intro ⟨u, hu⟩
              rw [hO] at hu
              cases hu
            · intro ⟨_, _, _, hnone, _⟩
              rw [hnone] at hr
              cases hr
          · intro _
            exact ⟨ErrCode.token_revoked, hO⟩
        · have hrnone : findRevoked s (jtiOfPayload d) = none :=
            Option.not_isSome_iff_eq_none.mp (by simpa using hr)
          cases subv with
          | num n =>
            have hbad : validateSub d = false := by
              unfold validateSub
              rw [hs]
            rw [hbad] at hsubv
            cases hsubv
          | str x =>
            have hx : (pyIntStr? x).isSome = true := by
              unfold subNumeral at hnum
              rw [hs] at hnum
              exact hnum
            obtain ⟨uid, huid⟩ := Option.isSome_iff_exists.mp hx
            cases hf : s.users.find? (fun v => v.id = uid) with
            | none =>
              have hO : get_current_user (Token.signed d) s now =
                  AuthOutcome.err ErrCode.user_not_found := by
                unfold get_current_user
                rw [hdec]
                simp only [hs, hr, Bool.false_eq_true, if_false, pyIntOfJVal, huid, hf]
              have hres : subResolves d s = false := by
                unfold subResolves
                rw [hs]
                simp [huid, hf]
              constructor
              · constructor
                · intro ⟨u, hu⟩
                  rw [hO] at hu
                  cases hu
                · intro ⟨_, _, _, _, hcontra⟩
                  rw [hres] at hcontra
                  cases hcontra
              · intro _
                exact ⟨ErrCode.user_not_found, hO⟩
            | some u0 =>
              have hO : get_current_user (Token.signed d) s now = AuthOutcome.ok u0 := by
                unfold get_current_user
                rw [hdec]
                simp only [hs, hr, Bool.false_eq_true, if_false, pyIntOfJVal, huid, hf]
              have hres : subResolves d s = true := by
                unfold subResolves
                rw [hs]
                simp [huid, hf]
              constructor
              · constructor
                · intro _
                  exact ⟨trivial, hexp, hjtiv, hrnone, hres⟩
                · intro _
                  exact ⟨u0, hO⟩
              · intro hno
                exact absurd ⟨u0, hO⟩ hno
    · have hO : get_current_user (Token.signed d) s now =
          AuthOutcome.err ErrCode.invalid_token := by
        unfold get_current_user
        have hdec : decode_access_token (Token.signed d) now = none := by
          show (if (validateExp d now && validateSub d && validateJti d) = true
            then some d else none) = none
          rw [if_neg hv]
        rw [hdec]
      constructor
      · constructor
        · intro ⟨u, hu⟩
          rw [hO] at hu
          cases hu
        · intro ⟨_, hexp, hjtiv, _, hres⟩
          exact absurd (by
            rw [hexp, hjtiv, validateSub_of_subResolves d s hres]
            rfl) hv
      · intro _
        exact ⟨ErrCode.invalid_token, hO⟩

/-- C1 counterexample: `sampleGhostToken` is well signed, unexpired at
time 10, and its identifier is not revoked — the claim's three
conditions all hold — yet validation does not succeed: the subject (user
id 2) has no row, and the handler answers 401 `user_not_found`. -/
theorem validate_success_iff_counterexample :
    (isSigned sampleGhostToken = true ∧
      validateExp (payloadOf sampleGhostToken) 10 = true ∧
      findRevoked sampleState (jtiOfPayload (payloadOf sampleGhostToken)) = none) ∧
    get_current_user sampleGhostToken sampleState 10 =
      AuthOutcome.err ErrCode.user_not_found := by decide

/-- C1 witness: the validation characterisation applied to `sampleToken`
on the sample store at time 10, yielding the successful outcome from the
right-hand side conditions. -/
theorem validate_success_iff_witness :
    ∃ u, get_current_user sampleToken sampleState 10 = AuthOutcome.ok u :=
  ((validate_success_iff sampleToken sampleState 10 (fun _ => by decide)
      (fun _ => by decide)).1).mpr (by decide)

end AucaAuth
